import Mathlib

/-!
# Verification of the axon WebSocket library against its specification

Shallow embedding of the axon (kolosys/axon) WebSocket runtime: the RFC 6455
frame codec, the connection state machine, the offline message queue, the
per-message DEFLATE manager, the close-code taxonomy, the handshake accept-key
derivation, and the typed connection read/write paths.  Bytes are modelled as
natural numbers below 256, byte streams as lists; fallible operations return
`Except`.  Each definition is translated from the corresponding Go function
and keeps its name where Lean allows.
-/

namespace Axon

/-! ## Frame codec (frame.go)

A byte stream is a `List Nat`; reading from the stream consumes a prefix and
returns the rest.  A short read models `io.ReadFull` returning an error. -/

/-- Errors surfaced by the codec and connection (errors.go sentinels). -/
inductive FrameError where
  | eof
  | invalidFrame
  | unsupportedFrameType
  | fragmentedControlFrame
  | frameTooLarge
  deriving DecidableEq

/-- `Frame` mirrors the Go struct: fin/rsv flags, opcode, mask flag, mask key
and payload.  `readFrameHeader` leaves `payload` as `payloadLen` zero bytes,
exactly as the Go code allocates `make([]byte, payloadLen)`. -/
structure Frame where
  fin : Bool
  rsv1 : Bool
  rsv2 : Bool
  rsv3 : Bool
  opcode : Nat
  masked : Bool
  maskKey : List Nat
  payload : List Nat
  deriving DecidableEq

/-- `readFrameHeader` translated line by line from frame.go: reads the two
header bytes, decodes the flag bits, rejects non-zero RSV bits, keeps the
source's (unsatisfiable) `opcode > 0x7 && opcode < 0x8` test and the
`opcode > 0xA` test, rejects fragmented control frames, decodes the extended
payload lengths (big-endian u16 / u64 with zero high four bytes), and reads
the 4-byte mask key when the mask bit is set. -/
def readFrameHeader (input : List Nat) : Except FrameError (Frame × List Nat) :=
  match input with
  | b0 :: b1 :: rest =>
    let frame : Frame :=
      { fin := b0 &&& 0x80 != 0
        rsv1 := b0 &&& 0x40 != 0
        rsv2 := b0 &&& 0x20 != 0
        rsv3 := b0 &&& 0x10 != 0
        opcode := b0 &&& 0x0F
        masked := b1 &&& 0x80 != 0
        maskKey := []
        payload := [] }
    if b0 &&& 0x70 != 0 then
      .error .invalidFrame
    else if frame.opcode > 0x7 && frame.opcode < 0x8 then
      .error .unsupportedFrameType
    else if frame.opcode > 0xA then
      .error .unsupportedFrameType
    else if frame.opcode ≥ 0x8 && !frame.fin then
      .error .fragmentedControlFrame
    else
      let lenResult : Except FrameError (Nat × List Nat) :=
        if b1 &&& 0x7F == 126 then
          match rest with
          | b2 :: b3 :: rest2 => .ok (256 * b2 + b3, rest2)
          | _ => .error .eof
        else if b1 &&& 0x7F == 127 then
          match rest with
          | b2 :: b3 :: b4 :: b5 :: b6 :: b7 :: b8 :: b9 :: rest2 =>
            if b2 != 0 || b3 != 0 || b4 != 0 || b5 != 0 then
              .error .frameTooLarge
            else
              .ok (16777216 * b6 + 65536 * b7 + 256 * b8 + b9, rest2)
          | _ => .error .eof
        else
          .ok (b1 &&& 0x7F, rest)
      match lenResult with
      | .error e => .error e
      | .ok (payloadLen, rest') =>
        if frame.masked then
          match rest' with
          | k0 :: k1 :: k2 :: k3 :: rest'' =>
            .ok ({ frame with maskKey := [k0, k1, k2, k3]
                              payload := List.replicate payloadLen 0 }, rest'')
          | _ => .error .eof
        else
          .ok ({ frame with payload := List.replicate payloadLen 0 }, rest')
  | _ => .error .eof

/-- `maskBytes` applies the RFC 6455 XOR mask `p[i] ^= mask[i%4]`; the index
argument tracks the position `i`. -/
def maskBytesAux (mask : List Nat) (i : Nat) : List Nat → List Nat
  | [] => []
  | b :: bs => (b ^^^ mask.getD (i % 4) 0) :: maskBytesAux mask (i + 1) bs

/-- `maskBytes` from frame.go. -/
def maskBytes (payload mask : List Nat) : List Nat :=
  maskBytesAux mask 0 payload

/-- `readFrame` from frame.go: header, frame-size check against `maxSize`,
payload read (`io.ReadFull` fails on a short stream), unmask when masked. -/
def readFrame (input : List Nat) (maxSize : Nat) : Except FrameError (Frame × List Nat) :=
  match readFrameHeader input with
  | .error e => .error e
  | .ok (frame, rest) =>
    if frame.payload.length > maxSize then
      .error .frameTooLarge
    else if frame.payload.length > 0 then
      if rest.length < frame.payload.length then
        .error .eof
      else
        let p := rest.take frame.payload.length
        let p := if frame.masked then maskBytes p frame.maskKey else p
        .ok ({ frame with payload := p }, rest.drop frame.payload.length)
    else
      .ok (frame, rest)

/-- Big-endian 16-bit encoding (`binary.BigEndian.PutUint16`); the value is
truncated to 16 bits as the Go cast `uint16(payloadLen)` does. -/
def be16 (n : Nat) : List Nat :=
  [n / 256 % 256, n % 256]

/-- Big-endian 64-bit encoding (`binary.BigEndian.PutUint64`). -/
def be64 (n : Nat) : List Nat :=
  [n / 72057594037927936 % 256, n / 281474976710656 % 256,
   n / 1099511627776 % 256, n / 4294967296 % 256,
   n / 16777216 % 256, n / 65536 % 256, n / 256 % 256, n % 256]

/-- `writeFrame` from frame.go, as the byte sequence it emits: header byte 0
from fin/rsv/opcode, header byte 1 from mask bit and the length encoding
(inline below 126, u16 below 65536, u64 otherwise), then the mask key when
masked, then the payload verbatim (the caller pre-masks, see Conn.Write). -/
def writeFrameBytes (frame : Frame) : List Nat :=
  let b0 := (if frame.fin then 0x80 else 0) |||
            (if frame.rsv1 then 0x40 else 0) |||
            (if frame.rsv2 then 0x20 else 0) |||
            (if frame.rsv3 then 0x10 else 0) |||
            (frame.opcode &&& 0x0F)
  let m := if frame.masked then 0x80 else 0
  let n := frame.payload.length
  let header :=
    if n < 126 then [b0, m ||| n]
    else if n < 65536 then [b0, m ||| 126] ++ be16 n
    else [b0, m ||| 127] ++ be64 n
  header ++ (if frame.masked then frame.maskKey else []) ++ frame.payload

/-! ## Connection state machine (state.go) -/

/-- The six connection lifecycle states. -/
inductive ConnectionState where
  | disconnected
  | connecting
  | connected
  | reconnecting
  | closing
  | closed
  deriving DecidableEq

/-- `validTransitions` from state.go: the table of allowed transitions;
`closed` is terminal. -/
def validTransitions : ConnectionState → List ConnectionState
  | .disconnected => [.connecting, .closed]
  | .connecting => [.connected, .disconnected, .closed]
  | .connected => [.disconnected, .reconnecting, .closing, .closed]
  | .reconnecting => [.connecting, .connected, .disconnected, .closed]
  | .closing => [.closed]
  | .closed => []

/-- `isValidTransition` from state.go: membership in the table. -/
def isValidTransition (fromState toState : ConnectionState) : Bool :=
  (validTransitions fromState).contains toState

/-- `stateManager.transition` from state.go: a compare-and-set on the atomic
state.  The first component is the returned Bool, the second the state after
the call.  Handler notification is a side effect outside the embedding. -/
def transition (current fromState toState : ConnectionState) : Bool × ConnectionState :=
  if current = fromState then (true, toState) else (false, current)

/-- `stateManager.forceTransition` from state.go: an unconditional swap.
Returns (previous state, state after the call). -/
def forceTransition (current toState : ConnectionState) : ConnectionState × ConnectionState :=
  (current, toState)

/-! ## Close codes (close.go)

`CloseCode` is a Go `int`; modelled as `Int`. -/

/-- `CloseCode.IsRecoverable` from close.go, the `switch` translated case by
case in source order (the cases are disjoint, so the order is immaterial). -/
def closeCodeIsRecoverable (c : Int) : Bool :=
  if c = 1000 then false
  else if c = 1001 then true
  else if c = 1002 ∨ c = 1003 ∨ c = 1007 then false
  else if c = 1008 then false
  else if c = 1009 then false
  else if c = 1010 then false
  else if c = 1011 then true
  else if c = 1012 ∨ c = 1013 then true
  else if c = 1014 then true
  else if c = 1006 ∨ c = 1005 then true
  else decide (4000 ≤ c)

/-! ## Message queue (queue.go)

The queue's observable counters depend on external events only through how
each flushed entry is classified (expired / context cancelled / send ok /
send error), so a queued message is abstracted to that classification, fixed
at enqueue time.  Timeout bookkeeping itself involves wall-clock time and is
outside the embedding. -/

/-- How `Flush` classifies one queued entry. -/
inductive FlushOutcome where
  | expired
  | cancelled
  | sendOk
  | sendErr
  deriving DecidableEq

/-- Errors returned by `Enqueue`. -/
inductive QueueError where
  | queueClosed
  | queueFull
  deriving DecidableEq

/-- `MessageQueue` counters and state (queue.go). -/
structure MessageQueue where
  queue : List FlushOutcome
  maxSize : Nat
  dropped : Nat
  enqueued : Nat
  sent : Nat
  closed : Bool
  deriving DecidableEq

/-- `newMessageQueue` from queue.go: a non-positive max size is replaced by
the default 100. -/
def newMessageQueue (maxSize : Int) : MessageQueue :=
  { queue := [], maxSize := if maxSize ≤ 0 then 100 else maxSize.toNat,
    dropped := 0, enqueued := 0, sent := 0, closed := false }

/-- `MessageQueue.Enqueue` from queue.go: closed → `ErrQueueClosed`; full →
increment `dropped` and `ErrQueueFull`; otherwise push and increment
`enqueued`. -/
def MessageQueue.Enqueue (mq : MessageQueue) (m : FlushOutcome) :
    Option QueueError × MessageQueue :=
  if mq.closed then (some .queueClosed, mq)
  else if mq.queue.length ≥ mq.maxSize then
    (some .queueFull, { mq with dropped := mq.dropped + 1 })
  else
    (none, { mq with queue := mq.queue ++ [m], enqueued := mq.enqueued + 1 })

/-- One entry of `Flush`'s loop: expired, cancelled and failed sends increment
`dropped`; successful sends increment `sent` (queue.go). -/
def flushStep (mq : MessageQueue) (m : FlushOutcome) : MessageQueue :=
  match m with
  | .sendOk => { mq with sent := mq.sent + 1 }
  | _ => { mq with dropped := mq.dropped + 1 }

/-- `MessageQueue.Flush` from queue.go: swap the FIFO out for an empty one,
then process every snapshot entry. -/
def MessageQueue.Flush (mq : MessageQueue) : MessageQueue :=
  mq.queue.foldl flushStep { mq with queue := [] }

/-- `MessageQueue.Clear` from queue.go: every pending entry is dropped. -/
def MessageQueue.Clear (mq : MessageQueue) : MessageQueue :=
  { mq with dropped := mq.dropped + mq.queue.length, queue := [] }

/-- `MessageQueue.Close` from queue.go: idempotent; sets the closed flag and
clears. -/
def MessageQueue.Close (mq : MessageQueue) : MessageQueue :=
  if mq.closed then mq else MessageQueue.Clear { mq with closed := true }

/-- One observable queue operation. -/
inductive QueueOp where
  | enq (m : FlushOutcome)
  | flush
  | clear
  | close
  deriving DecidableEq

/-- Apply one operation to the queue state. -/
def queueStep (mq : MessageQueue) : QueueOp → MessageQueue
  | .enq m => (mq.Enqueue m).2
  | .flush => mq.Flush
  | .clear => mq.Clear
  | .close => mq.Close

/-- Run a sequence of queue operations. -/
def runQueue (mq : MessageQueue) (ops : List QueueOp) : MessageQueue :=
  ops.foldl queueStep mq

/-- Number of `Enqueue` calls in `ops` that are rejected with `ErrQueueFull`
when replayed from `mq` (each such call increments `dropped` without
incrementing `enqueued`). -/
def fullRejections (mq : MessageQueue) : List QueueOp → Nat
  | [] => 0
  | op :: ops =>
    (match op with
     | .enq m => if (mq.Enqueue m).1 = some .queueFull then 1 else 0
     | _ => 0) + fullRejections (queueStep mq op) ops

/-! ## Frame round-trip infrastructure

`ValidFrame` is the claim's validity predicate: assigned opcode, well-formed
control frame, clear reserved bits, mask key present exactly when masked, and
a payload below the 32-bit length bound. -/

def ValidFrame (f : Frame) : Prop :=
  (f.opcode = 0 ∨ f.opcode = 1 ∨ f.opcode = 2 ∨ f.opcode = 8 ∨ f.opcode = 9 ∨ f.opcode = 10) ∧
  (8 ≤ f.opcode → f.fin = true ∧ f.payload.length ≤ 125) ∧
  f.rsv1 = false ∧ f.rsv2 = false ∧ f.rsv3 = false ∧
  (f.masked = true → f.maskKey.length = 4) ∧
  (f.masked = false → f.maskKey = []) ∧
  f.payload.length < 4294967296

/-- The part of `readFrameHeader` after the error checks, as a function of the
decoded fin flag, opcode, raw second header byte and remaining stream. -/
def headerCont (fn : Bool) (op : Nat) (b1 : Nat) (rest : List Nat) :
    Except FrameError (Frame × List Nat) :=
  let frame : Frame := ⟨fn, false, false, false, op, b1 &&& 0x80 != 0, [], []⟩
  let lenResult : Except FrameError (Nat × List Nat) :=
    if b1 &&& 0x7F == 126 then
      match rest with
      | b2 :: b3 :: rest2 => .ok (256 * b2 + b3, rest2)
      | _ => .error .eof
    else if b1 &&& 0x7F == 127 then
      match rest with
      | b2 :: b3 :: b4 :: b5 :: b6 :: b7 :: b8 :: b9 :: rest2 =>
        if b2 != 0 || b3 != 0 || b4 != 0 || b5 != 0 then
          .error .frameTooLarge
        else
          .ok (16777216 * b6 + 65536 * b7 + 256 * b8 + b9, rest2)
      | _ => .error .eof
    else
      .ok (b1 &&& 0x7F, rest)
  match lenResult with
  | .error e => .error e
  | .ok (payloadLen, rest') =>
    if frame.masked then
      match rest' with
      | k0 :: k1 :: k2 :: k3 :: rest'' =>
        .ok ({ frame with maskKey := [k0, k1, k2, k3]
                          payload := List.replicate payloadLen 0 }, rest'')
      | _ => .error .eof
    else
      .ok ({ frame with payload := List.replicate payloadLen 0 }, rest')

/-- The mask-key step of `readFrameHeader`, as a function of the decoded
fields and the payload length. -/
def maskCont (fn : Bool) (op : Nat) (mk : Bool) (payloadLen : Nat) (rest : List Nat) :
    Except FrameError (Frame × List Nat) :=
  if mk then
    match rest with
    | k0 :: k1 :: k2 :: k3 :: rest' =>
      .ok (⟨fn, false, false, false, op, true, [k0, k1, k2, k3],
            List.replicate payloadLen 0⟩, rest')
    | _ => .error .eof
  else
    .ok (⟨fn, false, false, false, op, false, [], List.replicate payloadLen 0⟩, rest)

/-! ## Per-message DEFLATE (compression.go)

The DEFLATE codec itself is Go's `compress/flate`, an external library, so it
enters the embedding as an abstract codec: `deflateFlush b` is the buffer
contents after `compressor.Write(b); compressor.Flush()`, and `inflate s` is
`io.Copy` from `flate.NewReader` over `s`.  `FlateSpec` states the contract
§4.3 of the specification assumes of it: a sync-flushed stream ends with the
`00 00 FF FF` empty-block marker, and inflating a sync-flushed stream yields
the original bytes. -/

structure FlateCodec where
  deflateFlush : List Nat → List Nat
  inflate : List Nat → Except Unit (List Nat)

/-- The behaviour §4.3 assumes of the external DEFLATE primitives. -/
def FlateSpec (fc : FlateCodec) : Prop :=
  (∀ b, ∃ core, fc.deflateFlush b = core ++ [0x00, 0x00, 0xff, 0xff]) ∧
  (∀ b, fc.inflate (fc.deflateFlush b) = .ok b)

/-- `CompressionManager` fields from compression.go (mutexes and pooled
buffers are concurrency plumbing outside the embedding). -/
structure CompressionManager where
  enabled : Bool
  threshold : Int
  codec : FlateCodec

/-- `newCompressionManager` from compression.go: non-positive thresholds are
replaced by the default 256. -/
def newCompressionManager (threshold : Int) (codec : FlateCodec) : CompressionManager :=
  { enabled := true, threshold := if threshold ≤ 0 then 256 else threshold, codec := codec }

/-- `CompressionManager.ShouldCompress` from compression.go. -/
def CompressionManager.ShouldCompress (cm : CompressionManager) (payloadSize : Int) : Bool :=
  cm.enabled && payloadSize ≥ cm.threshold

/-- `CompressionManager.Compress` from compression.go: DEFLATE with a flush,
then strip a trailing `00 00 FF FF` marker when present (RFC 7692 §7.2.1). -/
def CompressionManager.Compress (cm : CompressionManager) (data : List Nat) : List Nat :=
  let compressed := cm.codec.deflateFlush data
  if 4 ≤ compressed.length ∧
      compressed.drop (compressed.length - 4) = [0x00, 0x00, 0xff, 0xff] then
    compressed.take (compressed.length - 4)
  else compressed

/-- `CompressionManager.Decompress` from compression.go: append
`00 00 FF FF`, then inflate to EOF. -/
def CompressionManager.Decompress (cm : CompressionManager) (data : List Nat) :
    Except Unit (List Nat) :=
  cm.codec.inflate (data ++ [0x00, 0x00, 0xff, 0xff])

/-- The identity codec: a lawful instance of `FlateSpec` used to witness the
round-trip theorem on concrete data. -/
def idFlate : FlateCodec :=
  { deflateFlush := fun b => b ++ [0x00, 0x00, 0xff, 0xff]
    inflate := fun s => .ok (s.take (s.length - 4)) }

/-! ## Handshake accept key (axon.go `computeAcceptKey`)

`computeAcceptKey` hashes `key ∥ GUID` with SHA-1 and base64-encodes the
digest.  Go strings are modelled as their byte lists; SHA-1 (FIPS 180-1, the
algorithm behind Go's `crypto/sha1`) and standard base64 (`encoding/base64`)
are implemented here over byte lists. -/

/-- The bytes of an ASCII string. -/
def asciiBytes (s : String) : List Nat :=
  s.data.map Char.toNat

/-- Big-endian bytes of one 32-bit word. -/
def be32 (n : Nat) : List Nat :=
  [n / 16777216 % 256, n / 65536 % 256, n / 256 % 256, n % 256]

/-- Left rotation of a 32-bit word. -/
def rotl32 (x n : Nat) : Nat :=
  ((x <<< n) ||| (x >>> (32 - n))) % 4294967296

/-- SHA-1 round function. -/
def sha1F (t b c d : Nat) : Nat :=
  if t < 20 then (b &&& c) ||| ((b ^^^ 4294967295) &&& d)
  else if t < 40 then b ^^^ c ^^^ d
  else if t < 60 then (b &&& c) ||| (b &&& d) ||| (c &&& d)
  else b ^^^ c ^^^ d

/-- SHA-1 round constants. -/
def sha1K (t : Nat) : Nat :=
  if t < 20 then 0x5A827999
  else if t < 40 then 0x6ED9EBA1
  else if t < 60 then 0x8F1BBCDC
  else 0xCA62C1D6

/-- Group a byte list into big-endian 32-bit words. -/
def bytesToWords : List Nat → List Nat
  | a :: b :: c :: d :: rest => (16777216 * a + 65536 * b + 256 * c + d) :: bytesToWords rest
  | _ => []

/-- Expand the 16 block words to the 80-word message schedule. -/
def sha1Ws (block : List Nat) : Array Nat :=
  (List.range 64).foldl
    (fun w _ =>
      w.push (rotl32 ((w.getD (w.size - 3) 0) ^^^ (w.getD (w.size - 8) 0) ^^^
        (w.getD (w.size - 14) 0) ^^^ (w.getD (w.size - 16) 0)) 1))
    block.toArray

/-- One SHA-1 round. -/
def sha1Round (st : Nat × Nat × Nat × Nat × Nat) (t wt : Nat) :
    Nat × Nat × Nat × Nat × Nat :=
  let (a, b, c, d, e) := st
  let temp := (rotl32 a 5 + sha1F t b c d + e + sha1K t + wt) % 4294967296
  (temp, a, rotl32 b 30, c, d)

/-- Process one 64-byte block. -/
def sha1ProcessBlock (hs : Nat × Nat × Nat × Nat × Nat) (block : List Nat) :
    Nat × Nat × Nat × Nat × Nat :=
  let w := sha1Ws (bytesToWords block)
  let (a, b, c, d, e) :=
    (List.range 80).foldl (fun st t => sha1Round st t (w.getD t 0)) hs
  ((hs.1 + a) % 4294967296, (hs.2.1 + b) % 4294967296, (hs.2.2.1 + c) % 4294967296,
   (hs.2.2.2.1 + d) % 4294967296, (hs.2.2.2.2 + e) % 4294967296)

/-- SHA-1 padding: `0x80`, zeros to 56 mod 64, then the 64-bit bit length. -/
def sha1Pad (msg : List Nat) : List Nat :=
  let l := msg.length
  let k := (120 - (l + 1) % 64) % 64
  msg ++ [0x80] ++ List.replicate k 0 ++ be64 (8 * l)

/-- Split a padded message into 64-byte blocks (structural recursion on a
fuel bound so the definition reduces in the kernel). -/
def sha1BlocksAux : Nat → List Nat → List (List Nat)
  | 0, _ => []
  | _, [] => []
  | fuel + 1, l => l.take 64 :: sha1BlocksAux fuel (l.drop 64)

/-- Split a padded message into 64-byte blocks. -/
def sha1Blocks (l : List Nat) : List (List Nat) :=
  sha1BlocksAux l.length l

/-- SHA-1 digest of a byte list, as 20 bytes. -/
def sha1 (msg : List Nat) : List Nat :=
  let (h0, h1, h2, h3, h4) :=
    (sha1Blocks (sha1Pad msg)).foldl sha1ProcessBlock
      (0x67452301, 0xEFCDAB89, 0x98BADCFE, 0x10325476, 0xC3D2E1F0)
  be32 h0 ++ be32 h1 ++ be32 h2 ++ be32 h3 ++ be32 h4

/-- The standard base64 alphabet. -/
def base64Chars : List Nat :=
  asciiBytes "ABCDEFGHIJKLMNOPQRSTUVWXYZabcdefghijklmnopqrstuvwxyz0123456789+/"

/-- Look up one base64 character. -/
def b64c (i : Nat) : Nat :=
  base64Chars.getD i 0

/-- Standard base64 with `=` padding (`encoding/base64` `StdEncoding`). -/
def base64Encode : List Nat → List Nat
  | [] => []
  | [a] => [b64c (a / 4), b64c (a % 4 * 16), 61, 61]
  | [a, b] => [b64c (a / 4), b64c (a % 4 * 16 + b / 16), b64c (b % 16 * 4), 61]
  | a :: b :: c :: rest =>
    b64c (a / 4) :: b64c (a % 4 * 16 + b / 16) :: b64c (b % 16 * 4 + c / 64) ::
      b64c (c % 64) :: base64Encode rest

/-- The WebSocket GUID (RFC 6455 §4.2.2), as in axon.go. -/
def websocketGUID : List Nat :=
  asciiBytes "258EAFA5-E914-47DA-95CA-C5AB0DC85B11"

/-- `computeAcceptKey` from axon.go: `base64(SHA1(key ∥ GUID))`. -/
def computeAcceptKey (key : List Nat) : List Nat :=
  base64Encode (sha1 (key ++ websocketGUID))

/-! ## Typed connection read and write (conn.go)

`Conn.Read` loops over frames: control frames are handled in place (close
returns `ErrConnectionClosed`, ping is answered with a pong, pong is
ignored), data frames accumulate into the message payload until a `fin`
frame.  Deadlines and the network transport are external; the stream of
incoming bytes is a list, the read deadline is a fuel bound, and bytes the
connection writes back (pongs) are accumulated.  Decompression and JSON
deserialization are parameters: Go's `compress/flate` and `encoding/json`
are external libraries instantiated per message type `T`. -/

inductive ReadError where
  | connectionClosed
  | deadlineExceeded
  | invalidFrame
  | unsupportedFrameType
  | messageTooLarge
  | frame (e : FrameError)
  | decompressFailed
  | deserializationFailed
  deriving DecidableEq

/-- The frame loop of `Conn.Read`: returns (reassembled message payload,
unread input, pong bytes written).  The Go `switch` on the opcode is a chain
of disjoint tests, translated branch by branch. -/
def connReadLoop (maxFrameSize maxMessageSize : Nat) :
    Nat → List Nat → List Nat → Bool → List Nat →
    Except ReadError (List Nat × List Nat × List Nat)
  | 0, _, _, _, _ => .error .deadlineExceeded
  | fuel + 1, input, acc, firstFrame, out =>
    match readFrame input maxFrameSize with
    | .error e =>
      -- readFrame fails with io.EOF exactly when the stream ends on a frame
      -- boundary; Conn.Read maps that to ErrConnectionClosed.
      if input.isEmpty then .error .connectionClosed else .error (.frame e)
    | .ok (frame, rest) =>
      if frame.opcode = 9 then
        connReadLoop maxFrameSize maxMessageSize fuel rest acc firstFrame
          (out ++ writeFrameBytes ⟨true, false, false, false, 10, false, [], frame.payload⟩)
      else if frame.opcode = 10 then
        connReadLoop maxFrameSize maxMessageSize fuel rest acc firstFrame out
      else if frame.opcode = 8 then
        .error .connectionClosed
      else if frame.opcode = 0 ∧ firstFrame then
        .error .invalidFrame
      else if (frame.opcode = 1 ∨ frame.opcode = 2) ∧ ¬firstFrame then
        .error .invalidFrame
      else if frame.opcode = 0 ∨ frame.opcode = 1 ∨ frame.opcode = 2 then
        let acc' := acc ++ frame.payload
        if acc'.length > maxMessageSize then .error .messageTooLarge
        else if frame.fin then .ok (acc', rest, out)
        else connReadLoop maxFrameSize maxMessageSize fuel rest acc' false out
      else .error .unsupportedFrameType

/-- `Conn.Read` after the frame loop: an empty reassembled payload returns
the zero value of `T` with no error; otherwise the payload is decompressed
when compression is enabled and then deserialized. -/
def connRead (T : Type) (zero : T) (maxFrameSize maxMessageSize : Nat)
    (compressionEnabled : Bool) (decompress : List Nat → Except ReadError (List Nat))
    (unmarshal : List Nat → Except ReadError T) (input : List Nat) (fuel : Nat) :
    Except ReadError T :=
  match connReadLoop maxFrameSize maxMessageSize fuel input [] true [] with
  | .error e => .error e
  | .ok (messagePayload, _, _) =>
    if messagePayload = [] then .ok zero
    else
      match (if compressionEnabled then decompress messagePayload
             else .ok messagePayload) with
      | .error e => .error e
      | .ok p => unmarshal p

/-- Modelled from the spec: Go's `encoding/json` encodes a string value as a
quoted JSON string; for ASCII strings containing no character that needs
escaping (no quote, backslash, control character, or HTML-escaped `<`, `>`,
`&`) the encoding is exactly `"` ++ bytes ++ `"`.  `encoding/json` itself is
an external library. -/
def jsonEncodeString (s : List Nat) : List Nat :=
  34 :: s ++ [34]

/-- Whether a byte would be escaped by Go's JSON string encoder. -/
def jsonNeedsEscape (b : Nat) : Bool :=
  b == 34 || b == 92 || b < 32 || b == 60 || b == 62 || b == 38

/-- Modelled from the spec: Go's `encoding/json` decoding of a JSON string
into a Go string, restricted to the escape-free ASCII form produced by
`jsonEncodeString`. -/
def jsonDecodeString (p : List Nat) : Option (List Nat) :=
  match p with
  | 34 :: rest =>
    if rest.getLast? = some 34 ∧ rest.dropLast.all (fun b => !jsonNeedsEscape b) then
      some rest.dropLast
    else none
  | _ => none

/-- `Conn.Read`'s deserialization step for `T = string`: `json.Unmarshal`
into a string, falling back to the raw bytes when the payload is not valid
JSON (conn.go's `*string` case). -/
def unmarshalString (p : List Nat) : Except ReadError (List Nat) :=
  match jsonDecodeString p with
  | some s => .ok s
  | none => .ok p

inductive WriteError where
  | messageTooLarge
  deriving DecidableEq

/-- `Conn.Write` for `T = string` without negotiated compression, as the
bytes it puts on the wire: `json.Marshal` (which succeeds on strings,
producing a quoted JSON string), the message size check, the text opcode, and
client-side masking with the given 4-byte key (generated from `crypto/rand`
in Go). -/
def connWriteString (maxMessageSize : Nat) (isClient : Bool) (maskKey : List Nat)
    (msg : List Nat) : Except WriteError (List Nat) :=
  let payload := jsonEncodeString msg
  if payload.length > maxMessageSize then .error .messageTooLarge
  else
    let framePayload := if isClient then maskBytes payload maskKey else payload
    .ok (writeFrameBytes ⟨true, false, false, false, 1, isClient,
      (if isClient then maskKey else []), framePayload⟩)

deriving instance DecidableEq for Except

/-! ## Theorems -/

/-! ## Queue counter lemmas -/

/-- Flushing entries leaves `enqueued` unchanged. -/
theorem foldl_flushStep_enqueued (l : List FlushOutcome) (acc : MessageQueue) :
    (l.foldl flushStep acc).enqueued = acc.enqueued := by
  induction l generalizing acc with
  | nil => rfl
  | cons m rest ih =>
    rw [List.foldl_cons, ih]
    cases m <;> rfl

/-- Flushing entries leaves the (already swapped-out) queue unchanged. -/
theorem foldl_flushStep_queue (l : List FlushOutcome) (acc : MessageQueue) :
    (l.foldl flushStep acc).queue = acc.queue := by
  induction l generalizing acc with
  | nil => rfl
  | cons m rest ih =>
    rw [List.foldl_cons, ih]
    cases m <;> rfl

/-- Every flushed entry goes to exactly one of `sent` or `dropped`. -/
theorem foldl_flushStep_sum (l : List FlushOutcome) (acc : MessageQueue) :
    (l.foldl flushStep acc).sent + (l.foldl flushStep acc).dropped =
      acc.sent + acc.dropped + l.length := by
  induction l generalizing acc with
  | nil => simp
  | cons m rest ih =>
    rw [List.foldl_cons]
    have := ih (flushStep acc m)
    cases m <;> simp [flushStep] at this ⊢ <;> omega

/-- One queue operation changes `enqueued` by exactly the change of
`sent + dropped + size`, except for an `Enqueue` rejected with `QueueFull`,
which adds one only to the right-hand side. -/
theorem queueStep_delta (mq : MessageQueue) (op : QueueOp) :
    (queueStep mq op).enqueued +
      (match op with
       | .enq m => if (mq.Enqueue m).1 = some .queueFull then 1 else 0
       | _ => 0) +
      (mq.sent + mq.dropped + mq.queue.length) =
    (queueStep mq op).sent + (queueStep mq op).dropped +
      (queueStep mq op).queue.length + mq.enqueued := by
  cases op with
  | enq m =>
    by_cases hc : mq.closed
    · simp [queueStep, MessageQueue.Enqueue, hc]
      omega
    · by_cases hf : mq.queue.length ≥ mq.maxSize
      · simp [queueStep, MessageQueue.Enqueue, hc, hf]
        omega
      · simp [queueStep, MessageQueue.Enqueue, hc, hf]
        omega
  | flush =>
    have h1 := foldl_flushStep_enqueued mq.queue { mq with queue := [] }
    have h2 := foldl_flushStep_queue mq.queue { mq with queue := [] }
    have h3 := foldl_flushStep_sum mq.queue { mq with queue := [] }
    simp only [queueStep, MessageQueue.Flush]
    simp at h1 h2 h3
    rw [h1, h2]
    simp
    omega
  | clear =>
    simp [queueStep, MessageQueue.Clear]
    omega
  | close =>
    by_cases hc : mq.closed
    · simp [queueStep, MessageQueue.Close, hc]
      omega
    · simp [queueStep, MessageQueue.Close, MessageQueue.Clear, hc]
      omega

/-- Generalized invariant: over any operation sequence, the growth of
`enqueued` plus the number of `QueueFull` rejections equals the growth of
`sent + dropped + size`. -/
theorem runQueue_delta (ops : List QueueOp) (mq : MessageQueue) :
    (runQueue mq ops).enqueued + fullRejections mq ops +
      (mq.sent + mq.dropped + mq.queue.length) =
    (runQueue mq ops).sent + (runQueue mq ops).dropped +
      (runQueue mq ops).queue.length + mq.enqueued := by
  induction ops generalizing mq with
  | nil =>
    simp only [runQueue, List.foldl_nil, fullRejections]
    omega
  | cons op ops ih =>
    have hstep := queueStep_delta mq op
    have hrest := ih (queueStep mq op)
    simp only [runQueue, List.foldl_cons, fullRejections] at hrest ⊢
    omega

/-- Bit extractions of header byte 0 for a clear-RSV frame. -/
theorem b0_bits (fn : Bool) (op : Nat) (h : op < 16) :
    (((if fn then 128 else 0) ||| (op &&& 15)) &&& 128 = if fn then (128 : Nat) else 0)
  ∧ (((if fn then 128 else 0) ||| (op &&& 15)) &&& 112 = 0)
  ∧ (((if fn then 128 else 0) ||| (op &&& 15)) &&& 64 = 0)
  ∧ (((if fn then 128 else 0) ||| (op &&& 15)) &&& 32 = 0)
  ∧ (((if fn then 128 else 0) ||| (op &&& 15)) &&& 16 = 0)
  ∧ (((if fn then 128 else 0) ||| (op &&& 15)) &&& 15 = op) := by
  have key : ∀ (b : Bool) (x : Fin 16),
      (((if b then 128 else 0) ||| ((x : Nat) &&& 15)) &&& 128 = if b then (128 : Nat) else 0)
    ∧ (((if b then 128 else 0) ||| ((x : Nat) &&& 15)) &&& 112 = 0)
    ∧ (((if b then 128 else 0) ||| ((x : Nat) &&& 15)) &&& 64 = 0)
    ∧ (((if b then 128 else 0) ||| ((x : Nat) &&& 15)) &&& 32 = 0)
    ∧ (((if b then 128 else 0) ||| ((x : Nat) &&& 15)) &&& 16 = 0)
    ∧ (((if b then 128 else 0) ||| ((x : Nat) &&& 15)) &&& 15 = x) := by decide
  exact key fn ⟨op, h⟩

/-- Bit extractions of header byte 1: mask bit and 7-bit length field. -/
theorem b1_bits (mk : Bool) (e : Nat) (h : e < 128) :
    (((if mk then 128 else 0) ||| e) &&& 128 = if mk then (128 : Nat) else 0)
  ∧ (((if mk then 128 else 0) ||| e) &&& 127 = e) := by
  have key : ∀ (b : Bool) (x : Fin 128),
      (((if b then 128 else 0) ||| (x : Nat)) &&& 128 = if b then (128 : Nat) else 0)
    ∧ (((if b then 128 else 0) ||| (x : Nat)) &&& 127 = x) := by decide
  exact key mk ⟨e, h⟩

/-- The boolean `!= 0` test recovers the fin/mask flag packed as
`if flag then 128 else 0`. -/
theorem flag128_bne (b : Bool) : ((if b then (128 : Nat) else 0) != 0) = b := by
  cases b <;> decide

/-- A well-formed first header byte passes all of `readFrameHeader`'s error
checks and decodes back to its fin flag and opcode. -/
theorem readFrameHeader_eq_headerCont (fn : Bool) (op : Nat)
    (hop : op = 0 ∨ op = 1 ∨ op = 2 ∨ op = 8 ∨ op = 9 ∨ op = 10)
    (hctl : 8 ≤ op → fn = true) (b1 : Nat) (rest : List Nat) :
    readFrameHeader (((if fn then 128 else 0) ||| (op &&& 15)) :: b1 :: rest) =
      headerCont fn op b1 rest := by
  have hop16 : op < 16 := by rcases hop with h | h | h | h | h | h <;> omega
  obtain ⟨h128, h112, h64, h32, h16, h15⟩ := b0_bits fn op hop16
  have hg1 : (decide (7 < op) && decide (op < 8)) = false := by
    rcases hop with h | h | h | h | h | h <;> subst h <;> decide
  have hg2 : ¬ (10 < op) := by rcases hop with h | h | h | h | h | h <;> omega
  have hg4 : (decide (8 ≤ op) && !fn) = false := by
    rcases Nat.lt_or_ge op 8 with h | h
    · simp [Nat.not_le.mpr h]
    · simp [hctl h]
  simp only [readFrameHeader, headerCont, h128, h112, h64, h32, h16, h15,
    flag128_bne, hg1, hg2, hg4, bne_self_eq_false, Bool.false_eq_true,
    if_false, ite_false]

/-- A 7-bit inline length below 126 decodes to itself. -/
theorem headerCont_inline (fn : Bool) (op : Nat) (mk : Bool) (n : Nat) (hn : n < 126)
    (rest : List Nat) :
    headerCont fn op ((if mk then 128 else 0) ||| n) rest = maskCont fn op mk n rest := by
  have h126 : (n == 126) = false := by simp; omega
  have h127' : (n == 127) = false := by simp; omega
  cases mk
  case false =>
    have h128 : (0 ||| n) &&& 128 = 0 := (b1_bits false n (by omega)).1
    have h127 : (0 ||| n) &&& 127 = n := (b1_bits false n (by omega)).2
    simp only [headerCont, maskCont, h128, h127, h126, h127', bne_self_eq_false,
      Bool.false_eq_true, if_false, ite_false]
  case true =>
    have h128 : (128 ||| n) &&& 128 = 128 := (b1_bits true n (by omega)).1
    have h127 : (128 ||| n) &&& 127 = n := (b1_bits true n (by omega)).2
    simp only [headerCont, maskCont, if_true, ite_true, h128, h127, h126, h127',
      Nat.reduceBNe, Bool.false_eq_true, if_false, ite_false]

/-- A 126 length marker followed by the big-endian u16 encoding decodes to the
original length. -/
theorem headerCont_u16 (fn : Bool) (op : Nat) (mk : Bool) (n : Nat)
    (h2 : n < 65536) (rest : List Nat) :
    headerCont fn op ((if mk then 128 else 0) ||| 126) (be16 n ++ rest) =
      maskCont fn op mk n rest := by
  have hdec : 256 * (n / 256 % 256) + n % 256 = n := by omega
  have htrue : ((128 : Nat) != 0) = true := rfl
  cases mk
  case false =>
    have h128 : (0 ||| 126) &&& 128 = 0 := (b1_bits false 126 (by omega)).1
    have h127 : (0 ||| 126) &&& 127 = 126 := (b1_bits false 126 (by omega)).2
    simp only [headerCont, maskCont, be16, h128, h127, List.cons_append,
      List.nil_append, hdec, bne_self_eq_false, Bool.false_eq_true, if_false,
      ite_false, beq_self_eq_true, if_true, ite_true]
  case true =>
    have h128 : (128 ||| 126) &&& 128 = 128 := (b1_bits true 126 (by omega)).1
    have h127 : (128 ||| 126) &&& 127 = 126 := (b1_bits true 126 (by omega)).2
    simp only [headerCont, maskCont, be16, if_true, ite_true, h128, h127,
      List.cons_append, List.nil_append, hdec, htrue, beq_self_eq_true,
      Bool.false_eq_true, if_false, ite_false]

/-- A 127 length marker followed by the big-endian u64 encoding of a value
below 2³² passes the high-bytes check and decodes to the original length. -/
theorem headerCont_u64 (fn : Bool) (op : Nat) (mk : Bool) (n : Nat)
    (h2 : n < 4294967296) (rest : List Nat) :
    headerCont fn op ((if mk then 128 else 0) ||| 127) (be64 n ++ rest) =
      maskCont fn op mk n rest := by
  have hz1 : n / 72057594037927936 % 256 = 0 := by omega
  have hz2 : n / 281474976710656 % 256 = 0 := by omega
  have hz3 : n / 1099511627776 % 256 = 0 := by omega
  have hz4 : n / 4294967296 % 256 = 0 := by omega
  have hdec : 16777216 * (n / 16777216 % 256) + 65536 * (n / 65536 % 256) +
      256 * (n / 256 % 256) + n % 256 = n := by omega
  have htrue : ((128 : Nat) != 0) = true := rfl
  have hne : ((127 : Nat) == 126) = false := rfl
  cases mk
  case false =>
    have h128 : (0 ||| 127) &&& 128 = 0 := (b1_bits false 127 (by omega)).1
    have h127 : (0 ||| 127) &&& 127 = 127 := (b1_bits false 127 (by omega)).2
    simp only [headerCont, maskCont, be64, h128, h127, List.cons_append,
      List.nil_append, hz1, hz2, hz3, hz4, hdec, hne, bne_self_eq_false,
      Bool.or_self, Bool.false_eq_true, if_false, ite_false, beq_self_eq_true,
      if_true, ite_true]
  case true =>
    have h128 : (128 ||| 127) &&& 128 = 128 := (b1_bits true 127 (by omega)).1
    have h127 : (128 ||| 127) &&& 127 = 127 := (b1_bits true 127 (by omega)).2
    simp only [headerCont, maskCont, be64, if_true, ite_true, h128, h127,
      List.cons_append, List.nil_append, hz1, hz2, hz3, hz4, hdec, hne, htrue,
      bne_self_eq_false, Bool.or_self, beq_self_eq_true, Bool.false_eq_true,
      if_false, ite_false]

/-- A list of length four is a literal four-element list. -/
theorem length_eq_four {α : Type} {l : List α} (h : l.length = 4) :
    ∃ a b c d, l = [a, b, c, d] := by
  match l, h with
  | [a, b, c, d], _ => exact ⟨a, b, c, d, rfl⟩

/-- Parsing the serialized frame consumes the header and mask key, recovers
every header field, and leaves the payload bytes (followed by any trailing
stream) unread. -/
theorem readFrameHeader_writeFrame (f : Frame) (extra : List Nat) (hv : ValidFrame f) :
    readFrameHeader (writeFrameBytes f ++ extra) =
      .ok ({ f with payload := List.replicate f.payload.length 0 },
           f.payload ++ extra) := by
  obtain ⟨fn, r1, r2, r3, op, mk, mkey, payload⟩ := f
  obtain ⟨hop, hctl, h1, h2, h3, hmk4, hmk0, hlen⟩ := hv
  simp only at hop hctl h1 h2 h3 hmk4 hmk0 hlen
  subst h1; subst h2; subst h3
  have hctl' : 8 ≤ op → fn = true := fun h => (hctl h).1
  simp only [writeFrameBytes, Bool.false_eq_true, if_false, ite_false,
    Nat.or_zero]
  rcases Nat.lt_or_ge payload.length 126 with hr | hr
  · rw [if_pos hr]
    cases mk
    case false =>
      have hkey : mkey = [] := hmk0 rfl
      subst hkey
      simp only [List.cons_append, List.nil_append]
      rw [readFrameHeader_eq_headerCont fn op hop hctl',
        headerCont_inline fn op false payload.length hr]
      simp [maskCont]
    case true =>
      obtain ⟨k0, k1, k2, k3, hkey⟩ := length_eq_four (hmk4 rfl)
      subst hkey
      simp only [List.cons_append, List.nil_append]
      rw [readFrameHeader_eq_headerCont fn op hop hctl']
      simp only [if_true, ite_true]
      have hB : headerCont fn op (128 ||| payload.length)
            ([k0, k1, k2, k3] ++ (payload ++ extra)) =
          maskCont fn op true payload.length ([k0, k1, k2, k3] ++ (payload ++ extra)) :=
        headerCont_inline fn op true payload.length hr _
      simp only [List.append_assoc] at hB ⊢
      rw [hB]
      simp [maskCont]
  · rcases Nat.lt_or_ge payload.length 65536 with hr2 | hr2
    · rw [if_neg (by omega), if_pos hr2]
      cases mk
      case false =>
        have hkey : mkey = [] := hmk0 rfl
        subst hkey
        simp only [List.cons_append, List.nil_append, List.append_assoc]
        rw [readFrameHeader_eq_headerCont fn op hop hctl',
          headerCont_u16 fn op false payload.length hr2]
        simp [maskCont]
      case true =>
        obtain ⟨k0, k1, k2, k3, hkey⟩ := length_eq_four (hmk4 rfl)
        subst hkey
        simp only [List.cons_append, List.nil_append, List.append_assoc]
        rw [readFrameHeader_eq_headerCont fn op hop hctl']
        simp only [if_true, ite_true]
        have hB : headerCont fn op (128 ||| 126)
              (be16 payload.length ++ ([k0, k1, k2, k3] ++ (payload ++ extra))) =
            maskCont fn op true payload.length ([k0, k1, k2, k3] ++ (payload ++ extra)) :=
          headerCont_u16 fn op true payload.length hr2 _
        simp only [be16, List.cons_append, List.nil_append, List.append_assoc] at hB ⊢
        rw [hB]
        simp [maskCont]
    · rw [if_neg (by omega), if_neg (by omega)]
      cases mk
      case false =>
        have hkey : mkey = [] := hmk0 rfl
        subst hkey
        simp only [List.cons_append, List.nil_append, List.append_assoc]
        rw [readFrameHeader_eq_headerCont fn op hop hctl',
          headerCont_u64 fn op false payload.length hlen]
        simp [maskCont]
      case true =>
        obtain ⟨k0, k1, k2, k3, hkey⟩ := length_eq_four (hmk4 rfl)
        subst hkey
        simp only [List.cons_append, List.nil_append, List.append_assoc]
        rw [readFrameHeader_eq_headerCont fn op hop hctl']
        simp only [if_true, ite_true]
        have hB : headerCont fn op (128 ||| 127)
              (be64 payload.length ++ ([k0, k1, k2, k3] ++ (payload ++ extra))) =
            maskCont fn op true payload.length ([k0, k1, k2, k3] ++ (payload ++ extra)) :=
          headerCont_u64 fn op true payload.length hlen _
        simp only [be64, List.cons_append, List.nil_append, List.append_assoc] at hB ⊢
        rw [hB]
        simp [maskCont]

/-- `readFrame` on the serialized frame: every field round-trips; the payload
read back is the written payload, unmasked when the mask flag was set. -/
theorem readFrame_writeFrame (f : Frame) (extra : List Nat) (maxSize : Nat)
    (hv : ValidFrame f) (hmax : f.payload.length ≤ maxSize) :
    readFrame (writeFrameBytes f ++ extra) maxSize =
      .ok ({ f with payload := if f.masked then maskBytes f.payload f.maskKey
                               else f.payload }, extra) := by
  rw [readFrame, readFrameHeader_writeFrame f extra hv]
  simp only [List.length_replicate]
  rw [if_neg (by omega)]
  by_cases hp : f.payload = []
  · rw [hp]
    simp [maskBytes, maskBytesAux]
  · have hpos : 0 < f.payload.length := List.length_pos.mpr hp
    rw [if_pos (by omega)]
    rw [if_neg (by rw [List.length_append]; omega)]
    have htake : (f.payload ++ extra).take f.payload.length = f.payload :=
      List.take_left f.payload extra
    have hdrop : (f.payload ++ extra).drop f.payload.length = extra :=
      List.drop_left f.payload extra
    rw [htake, hdrop]

/-- XOR masking is an involution: unmasking a masked payload with the same
key restores the original bytes (RFC 6455 §5.3). -/
theorem maskBytesAux_involution (mask : List Nat) (i : Nat) (p : List Nat) :
    maskBytesAux mask i (maskBytesAux mask i p) = p := by
  induction p generalizing i with
  | nil => rfl
  | cons b bs ih =>
    simp [maskBytesAux, Nat.xor_assoc, ih]

/-- `maskBytes` undoes `maskBytes` with the same key. -/
theorem maskBytes_involution (p mask : List Nat) :
    maskBytes (maskBytes p mask) mask = p :=
  maskBytesAux_involution mask 0 p

/-- The identity codec satisfies the §4.3 contract. -/
theorem idFlate_spec : FlateSpec idFlate := by
  constructor
  · intro b
    exact ⟨b, rfl⟩
  · intro b
    simp [idFlate, List.take_left]

/-- Masking does not change the payload length. -/
theorem maskBytesAux_length (mask : List Nat) (i : Nat) (p : List Nat) :
    (maskBytesAux mask i p).length = p.length := by
  induction p generalizing i with
  | nil => rfl
  | cons b bs ih => simp [maskBytesAux, ih]

/-- `maskBytes` preserves length. -/
theorem maskBytes_length (p mask : List Nat) :
    (maskBytes p mask).length = p.length :=
  maskBytesAux_length mask 0 p

/-- One final unfragmented text frame: the read loop returns its payload,
leaving the rest of the stream unread and writing nothing back. -/
theorem connReadLoop_step_text (maxF maxM fuel : Nat) (input rest : List Nat)
    (fr : Frame) (hread : readFrame input maxF = .ok (fr, rest))
    (hop : fr.opcode = 1) (hfin : fr.fin = true)
    (hlen : fr.payload.length ≤ maxM) :
    connReadLoop maxF maxM (fuel + 1) input [] true [] = .ok (fr.payload, rest, []) := by
  unfold connReadLoop
  simp only [hread, hop, hfin]
  rw [if_neg (by decide), if_neg (by decide), if_neg (by decide),
    if_neg (by decide), if_neg (by decide), if_pos (by decide)]
  simp only [List.nil_append]
  rw [if_neg (by omega)]
  simp only [if_true]

/-- The wire form of a masked text frame with a 13-byte payload. -/
theorem writeFrame_text_wire (key p : List Nat) (hp : p.length = 13) :
    writeFrameBytes ⟨true, false, false, false, 1, true, key, p⟩ =
      0x81 :: 0x8D :: (key ++ p) := by
  simp [writeFrameBytes, hp]

/-! ## Claim theorems -/

/-- C1: the claim says `readFrameHeader` fails with `UnsupportedFrameType`
for every opcode outside {0,1,2,8,9,10}.  The source's first guard,
`opcode > 0x7 && opcode < 0x8`, is unsatisfiable, so opcodes 3–7 pass both
opcode checks: on the two-byte frame `0x83 0x00` (fin, opcode 3, empty
unmasked payload) `readFrameHeader` succeeds and returns an opcode-3 frame
instead of failing. -/
theorem readFrameHeader_accepts_opcode_three :
    readFrameHeader [0x83, 0x00] =
      .ok ((⟨true, false, false, false, 3, false, [], []⟩ : Frame), []) := by decide

/-- C2: the claim says a successful `transition` only moves along an edge of
the lifecycle table and that `forceTransition` never leaves `Closed`.  The
compare-and-set never consults `validTransitions`: from `Closed` (a terminal
state with no outgoing edges) `transition Closed Connecting` succeeds and the
state becomes `Connecting`, and `forceTransition Connecting` also moves the
state out of `Closed`. -/
theorem transition_and_force_ignore_lifecycle_table :
    transition .closed .closed .connecting = (true, .connecting) ∧
    isValidTransition .closed .connecting = false ∧
    forceTransition .closed .connecting = (.closed, .connecting) ∧
    ConnectionState.connecting ≠ ConnectionState.closed := by decide

/-- C3 (counterexample): with max size 1, two `Enqueue` calls leave
`enqueued = 1` but `sent + dropped + current_size = 0 + 1 + 1 = 2`: the
second call is rejected with `QueueFull` and increments `dropped` without
incrementing `enqueued`, so the claimed identity fails. -/
theorem messageQueue_counter_claim_counterexample :
    (runQueue (newMessageQueue 1) [.enq .sendOk, .enq .sendOk]).enqueued ≠
      (runQueue (newMessageQueue 1) [.enq .sendOk, .enq .sendOk]).sent +
      (runQueue (newMessageQueue 1) [.enq .sendOk, .enq .sendOk]).dropped +
      (runQueue (newMessageQueue 1) [.enq .sendOk, .enq .sendOk]).queue.length := by
  decide

/-- C3 (amended): over every operation sequence from a fresh queue,
`enqueued` plus the number of `Enqueue` calls rejected with `QueueFull`
equals `sent + dropped + current_size`; in particular the claim's identity
holds whenever no `Enqueue` was rejected for a full queue. -/
theorem messageQueue_counter_identity (maxSize : Int) (ops : List QueueOp) :
    (runQueue (newMessageQueue maxSize) ops).enqueued +
      fullRejections (newMessageQueue maxSize) ops =
    (runQueue (newMessageQueue maxSize) ops).sent +
      (runQueue (newMessageQueue maxSize) ops).dropped +
      (runQueue (newMessageQueue maxSize) ops).queue.length := by
  have h := runQueue_delta ops (newMessageQueue maxSize)
  simp only [newMessageQueue, List.length_nil] at h ⊢
  omega

/-- C4: `Decompress (Compress B) = B`.  The DEFLATE primitives are Go's
`compress/flate`, modelled abstractly by the contract of §4.3 (`FlateSpec`):
under it, `Compress` strips exactly the trailing `00 00 FF FF` sync-flush
marker and `Decompress` re-appends it, so inflation sees the identical
DEFLATE stream and returns the original bytes. -/
theorem compress_decompress_roundtrip (cm : CompressionManager) (data : List Nat)
    (hspec : FlateSpec cm.codec) (_hthr : cm.threshold ≤ (data.length : Int)) :
    cm.Decompress (cm.Compress data) = .ok data := by
  obtain ⟨hmarker, hinv⟩ := hspec
  obtain ⟨core, hcore⟩ := hmarker data
  have hsub : (core ++ [0x00, 0x00, 0xff, 0xff]).length - 4 = core.length := by
    simp
  have h4 : 4 ≤ (core ++ [0x00, 0x00, 0xff, 0xff]).length := by simp
  have hdrop : (core ++ [0x00, 0x00, 0xff, 0xff]).drop
      ((core ++ [0x00, 0x00, 0xff, 0xff]).length - 4) = [0x00, 0x00, 0xff, 0xff] := by
    rw [hsub, List.drop_left]
  have htake : (core ++ [0x00, 0x00, 0xff, 0xff]).take
      ((core ++ [0x00, 0x00, 0xff, 0xff]).length - 4) = core := by
    rw [hsub, List.take_left]
  simp only [CompressionManager.Compress, CompressionManager.Decompress, hcore]
  rw [if_pos ⟨h4, hdrop⟩, htake, ← hcore]
  exact hinv data

/-- C4 (witness): the round trip on a concrete 256-byte payload at the
default threshold, through a codec satisfying the §4.3 contract. -/
theorem compress_decompress_roundtrip_witness :
    (newCompressionManager 256 idFlate).Decompress
        ((newCompressionManager 256 idFlate).Compress (List.replicate 256 7)) =
      .ok (List.replicate 256 7) :=
  compress_decompress_roundtrip (newCompressionManager 256 idFlate)
    (List.replicate 256 7) idFlate_spec
    (by rw [List.length_replicate]; norm_num [newCompressionManager])

/-- C5: the claim's first half holds — any set reserved bit is rejected with
`InvalidFrame` when compression was not negotiated — but its second half
fails: `readFrameHeader` takes no negotiation state and rejects RSV bits
unconditionally, so a data frame with only rsv1 set (first byte `0xC1`) is
rejected even though the write path emits exactly such frames for compressed
messages. -/
theorem readFrameHeader_rejects_rsv1_unconditionally :
    readFrameHeader [0xC1, 0x00] = .error .invalidFrame := by decide

/-- C7 (counterexample): `IsRecoverable 1005` returns true, yet 1005 is
below 4000 and not in the claim's recoverable list {1001, 1006, 1011, 1012,
1013, 1014}, for which the claim requires false. -/
theorem isRecoverable_claim_counterexample :
    closeCodeIsRecoverable 1005 = true ∧
    ¬ ((1005 : Int) = 1001 ∨ (1005 : Int) = 1006 ∨ (1005 : Int) = 1011 ∨
       (1005 : Int) = 1012 ∨ (1005 : Int) = 1013 ∨ (1005 : Int) = 1014 ∨
       (4000 : Int) ≤ 1005) := by decide

/-- C7 (amended): `IsRecoverable` returns true exactly for 1001, 1005, 1006,
1011, 1012, 1013, 1014 and every code ≥ 4000 (close.go also marks
`CloseNoStatusReceived` 1005 recoverable, alongside 1006). -/
theorem isRecoverable_characterization (c : Int) :
    closeCodeIsRecoverable c = true ↔
      (c = 1001 ∨ c = 1005 ∨ c = 1006 ∨ c = 1011 ∨ c = 1012 ∨ c = 1013 ∨
       c = 1014 ∨ 4000 ≤ c) := by
  unfold closeCodeIsRecoverable
  split_ifs <;> simp_all <;> omega

/-- C6 (counterexample): the claim says parsing `writeFrame(F)` yields a
frame equal to F in (among others) the payload.  For the masked frame with
key `[1,0,0,0]` and payload `[0]`, `writeFrame` emits the payload verbatim
(the caller pre-masks, conn.go) while `readFrame` XORs it with the key, so
the parsed payload is `[1] ≠ [0]`. -/
theorem frame_roundtrip_claim_counterexample :
    readFrame (writeFrameBytes
        (⟨true, false, false, false, 1, true, [1, 0, 0, 0], [0]⟩ : Frame)) 100 =
      .ok ((⟨true, false, false, false, 1, true, [1, 0, 0, 0], [1]⟩ : Frame), []) ∧
    (⟨true, false, false, false, 1, true, [1, 0, 0, 0], [1]⟩ : Frame) ≠
      (⟨true, false, false, false, 1, true, [1, 0, 0, 0], [0]⟩ : Frame) := by decide

/-- C6 (amended): for every syntactically valid frame F (opcode in
{0,1,2,8,9,10}, control frames final with payload ≤ 125, reserved bits
clear — the parser rejects any RSV bit — mask key of 4 bytes exactly when
masked, payload below 2³²) and a frame limit at least the payload length,
parsing `writeFrame(F)` yields a frame equal to F in fin, rsv bits, opcode,
masked flag and mask key, whose payload is F's payload for unmasked frames
and `maskBytes(F.payload, maskKey)` — the unmasked plaintext — for masked
frames, with the whole stream consumed. -/
theorem frame_roundtrip (f : Frame) (maxSize : Nat) (hv : ValidFrame f)
    (hmax : f.payload.length ≤ maxSize) :
    readFrame (writeFrameBytes f) maxSize =
      .ok ({ f with payload := if f.masked then maskBytes f.payload f.maskKey
                               else f.payload }, []) := by
  have h := readFrame_writeFrame f [] maxSize hv hmax
  simpa using h

/-- C6 (witness): the round trip evaluated on a concrete masked text frame. -/
theorem frame_roundtrip_witness :
    readFrame (writeFrameBytes
        (⟨true, false, false, false, 1, true, [1, 2, 3, 4], [10, 20]⟩ : Frame)) 100 =
      .ok ((⟨true, false, false, false, 1, true, [1, 2, 3, 4], [11, 22]⟩ : Frame), []) := by
  have h := frame_roundtrip
    (⟨true, false, false, false, 1, true, [1, 2, 3, 4], [10, 20]⟩ : Frame) 100
    (by unfold ValidFrame; decide) (by decide)
  exact h.trans (by decide)

set_option maxRecDepth 10000 in
/-- C9: the accept key is `base64(SHA1(key ∥ GUID))` for every key — by
definition of `computeAcceptKey`, against the SHA-1 and standard base64
models — and on the RFC 6455 sample key `dGhlIHNhbXBsZSBub25jZQ==` it
evaluates to `s3pPLMBiTxaQ9kYGzzhZRbK+xOo=`. -/
theorem computeAcceptKey_spec :
    (∀ key, computeAcceptKey key = base64Encode (sha1 (key ++ websocketGUID))) ∧
    computeAcceptKey (asciiBytes "dGhlIHNhbXBsZSBub25jZQ==") =
      asciiBytes "s3pPLMBiTxaQ9kYGzzhZRbK+xOo=" :=
  ⟨fun _ => rfl, by decide⟩

/-- C10: whenever the frame loop reassembles an empty message payload,
`Conn.Read` returns the zero value of T with no error, for every
decompression function and every deserializer — neither is invoked. -/
theorem read_empty_message_returns_zero (T : Type) (zero : T)
    (maxFrameSize maxMessageSize fuel : Nat) (compressionEnabled : Bool)
    (decompress : List Nat → Except ReadError (List Nat))
    (unmarshal : List Nat → Except ReadError T) (input rest out : List Nat)
    (hloop : connReadLoop maxFrameSize maxMessageSize fuel input [] true [] =
      .ok ([], rest, out)) :
    connRead T zero maxFrameSize maxMessageSize compressionEnabled decompress
      unmarshal input fuel = .ok zero := by
  unfold connRead
  rw [hloop]
  rfl

/-- C10 (witness): a final empty text frame, read with a decompressor and a
deserializer that both always fail, still yields the zero value. -/
theorem read_empty_message_returns_zero_witness :
    connRead Nat 0 4096 1048576 true (fun _ => .error .decompressFailed)
      (fun _ => .error .deserializationFailed) [0x81, 0x00] 1 = .ok 0 :=
  read_empty_message_returns_zero Nat 0 4096 1048576 1 true
    (fun _ => .error .decompressFailed) (fun _ => .error .deserializationFailed)
    [0x81, 0x00] [] [] (by decide)

/-- C8 (counterexample): serialization goes through `json.Marshal` first,
which succeeds on strings and produces the 13-byte quoted form
`"hello world"`; the wire's second byte is therefore `0x8D` (mask bit + 13),
not the claimed `0x85` (mask bit + 5), and there are 13 masked payload
bytes, not 5. -/
theorem text_write_wire_claim_counterexample :
    connWriteString 1048576 true [1, 2, 3, 4] (asciiBytes "hello world") =
      .ok (0x81 :: 0x8D :: ([1, 2, 3, 4] ++
        maskBytes (jsonEncodeString (asciiBytes "hello world")) [1, 2, 3, 4])) ∧
    (jsonEncodeString (asciiBytes "hello world")).length = 13 ∧
    (0x8D : Nat) ≠ 0x85 := by
  refine ⟨by decide, by decide, by decide⟩

/-- C8 (amended): for every 4-byte mask key, a client write of the string
"hello world" emits a single frame beginning `0x81 0x8D`, followed by the
mask key and the 13 masked bytes of the JSON encoding `"hello world"` (the
write path JSON-encodes strings, adding the quotes), and a server `Conn`
reading that wire yields exactly the string "hello world". -/
theorem text_write_read_roundtrip (key : List Nat) (hk : key.length = 4) :
    ∃ w, connWriteString 1048576 true key (asciiBytes "hello world") = .ok w ∧
      w = 0x81 :: 0x8D ::
        (key ++ maskBytes (jsonEncodeString (asciiBytes "hello world")) key) ∧
      connRead (List Nat) [] 4096 1048576 false (fun _ => .error .decompressFailed)
        unmarshalString w 1 = .ok (asciiBytes "hello world") := by
  refine ⟨writeFrameBytes ⟨true, false, false, false, 1, true, key,
    maskBytes (jsonEncodeString (asciiBytes "hello world")) key⟩, rfl, ?_, ?_⟩
  · exact writeFrame_text_wire key _ (by rw [maskBytes_length]; rfl)
  · have hvalid : ValidFrame ⟨true, false, false, false, 1, true, key,
        maskBytes (jsonEncodeString (asciiBytes "hello world")) key⟩ := by
      refine ⟨Or.inr (Or.inl rfl),
        fun h => absurd (show (8 : Nat) ≤ 1 from h) (by decide),
        rfl, rfl, rfl, fun _ => hk,
        fun h => absurd (show true = false from h) (by decide), ?_⟩
      show (maskBytes (jsonEncodeString (asciiBytes "hello world")) key).length <
        4294967296
      rw [maskBytes_length]
      decide
    have hread := readFrame_writeFrame ⟨true, false, false, false, 1, true, key,
      maskBytes (jsonEncodeString (asciiBytes "hello world")) key⟩ [] 4096 hvalid
      (by show (maskBytes (jsonEncodeString (asciiBytes "hello world")) key).length ≤
            4096
          rw [maskBytes_length]; decide)
    rw [List.append_nil] at hread
    simp only [show (⟨true, false, false, false, 1, true, key,
      maskBytes (jsonEncodeString (asciiBytes "hello world")) key⟩ : Frame).masked =
        true from rfl, if_true, ite_true] at hread
    rw [maskBytes_involution] at hread
    have hloop : connReadLoop 4096 1048576 1
        (writeFrameBytes ⟨true, false, false, false, 1, true, key,
          maskBytes (jsonEncodeString (asciiBytes "hello world")) key⟩) [] true [] =
        .ok (jsonEncodeString (asciiBytes "hello world"), [], []) :=
      connReadLoop_step_text 4096 1048576 0 _ [] _ hread rfl rfl
        (by show (jsonEncodeString (asciiBytes "hello world")).length ≤ 1048576
            decide)
    unfold connRead
    rw [hloop]
    decide

/-- C8 (witness): the amended round trip at the concrete mask key
`[1, 2, 3, 4]`. -/
theorem text_write_read_roundtrip_witness :
    ∃ w, connWriteString 1048576 true [1, 2, 3, 4] (asciiBytes "hello world") = .ok w ∧
      w = 0x81 :: 0x8D :: ([1, 2, 3, 4] ++
        maskBytes (jsonEncodeString (asciiBytes "hello world")) [1, 2, 3, 4]) ∧
      connRead (List Nat) [] 4096 1048576 false (fun _ => .error .decompressFailed)
        unmarshalString w 1 = .ok (asciiBytes "hello world") :=
  text_write_read_roundtrip [1, 2, 3, 4] (by decide)

end Axon
